import Mathlib

/-!
Shallow embedding of `src/addon/mod/assign/providers/assign-sync.ts`
(`AddonModAssignSyncProvider`), the offline-synchronization provider of the
assignment module.

The provider is single-threaded cooperative async code.  Every method is
embedded as a pure Lean function: the results of external collaborator calls
(web services, offline store, base sync class) are supplied by an explicit
environment record, and each embedded function returns, along with its
resolved value or rejection reason, the ordered trace of the collaborator
calls it issued.  `Promise.all` sequences are modelled by running the member
promises in creation order (the scheduler is non-preemptive, and no claim
below depends on a finer interleaving).
-/

/-- A JavaScript error object as the sync provider inspects it: the
`isWebServiceError` classification (performed by a utility outside the
excerpt and modelled as a field of the error shape, which the spec describes
as "a distinguishable web-service error shape (message/error/content/body)
versus a generic transport failure"), plus the four message fields read by
`error.message || error.error || error.content || error.body`.  An absent or
empty-string field is modelled as `""` (both are falsy for `||`). -/
structure JsError where
  isWebServiceError : Bool
  message : String
  error : String
  content : String
  body : String
deriving Repr, DecidableEq

/-- A promise rejection reason as it occurs in this provider: `null`
(`Promise.reject(null)` on the offline path), an error object, a plain
localized string (the blocked path), or the TypeError thrown synchronously
inside a promise callback by the unguarded `gradeInfo.outcomes` read of the
gradebook-override loop (a TypeError carries none of the web-service error
shape, so `isWebServiceError` is false for it). -/
inductive RejectVal where
  | nullErr : RejectVal
  | err (e : JsError) : RejectVal
  | msg (s : String) : RejectVal
  | typeError : RejectVal
deriving Repr, DecidableEq

/-- JavaScript `a || b` on strings: an empty string is falsy. -/
def jsOr (a b : String) : String :=
  if a = "" then b else a

/-- The message chain `error.message || error.error || error.content ||
error.body` used to build a discard warning from a web-service error. -/
def errorMessageChain : RejectVal → String
  | RejectVal.err e => jsOr e.message (jsOr e.error (jsOr e.content e.body))
  | _ => ""

/-- The guard `error && this.utils.isWebServiceError(error)`: `null` is
falsy, and only an error object can carry the web-service shape. -/
def errTruthyAndWS : RejectVal → Bool
  | RejectVal.err e => e.isWebServiceError
  | _ => false

/-- Digit-list value, most significant first. -/
def digitsVal (l : List Char) : Nat :=
  l.foldl (fun acc c => acc * 10 + (c.toNat - 48)) 0

/-- JavaScript `parseFloat` restricted to plain decimal numerals (optional
sign, integer digits, optional fraction), which is the shape of the
`gradeformatted` strings this provider parses; `none` models `NaN`.
Exponent notation and `Infinity` are not modelled. -/
def parseFloatJS (s : String) : Option ℚ :=
  let l := s.data.dropWhile Char.isWhitespace
  let signAndRest : Bool × List Char :=
    match l with
    | '-' :: r => (true, r)
    | '+' :: r => (false, r)
    | _ => (false, l)
  let neg := signAndRest.1
  let l1 := signAndRest.2
  let intDigits := l1.takeWhile Char.isDigit
  let afterInt := l1.dropWhile Char.isDigit
  let fracDigits : List Char :=
    match afterInt with
    | '.' :: r => r.takeWhile Char.isDigit
    | _ => []
  if intDigits.isEmpty ∧ fracDigits.isEmpty then
    none
  else
    let den : Nat := 10 ^ fracDigits.length
    let numAbs : Int := (digitsVal intDigits * den + digitsVal fracDigits : Nat)
    some (mkRat (if neg then -numAbs else numAbs) den)

/-- `parseFloat(x) || null`: `NaN` and `0` are both falsy and yield `null`. -/
def parseFloatOrNull (s : String) : Option ℚ :=
  match parseFloatJS s with
  | none => none
  | some q => if q = 0 then none else some q

/-- First index at which `need` occurs as a contiguous sublist of `hay`
(JavaScript `String.prototype.indexOf` on the character lists), `-1` if it
does not occur; the empty needle occurs at index 0. -/
def jsIndexOfAux (hay need : List Char) (i : Nat) : Int :=
  if need.isPrefixOf hay then (i : Int)
  else
    match hay with
    | [] => -1
    | _ :: t => jsIndexOfAux t need (i + 1)

/-- JavaScript `haystack.indexOf(needle)` on strings. -/
def jsStringIndexOf (hay need : String) : Int :=
  jsIndexOfAux hay.data need.data 0

/-- `getSelectedScaleId(options, selected)`: the source builds a trimmed
options list with a leading empty entry but never reads it; the returned
value is the character index `options.indexOf(selected)` (`index || 0`
leaves every number unchanged except `0`, which it maps to `0`), clamped to
`0` when negative. -/
def getSelectedScaleId (options selected : String) : Int :=
  let _optionsList := "" :: ((options.splitOn ",").map (fun v => v.trim))
  let index : Int := jsStringIndexOf options selected
  if index < 0 then 0 else index

/-- `this.componentTranslate = courseProvider.translateModuleName('assign')`.
Modelled from the spec: the translation service (outside the excerpt) is
modelled as the identity on message keys, with parameters appended through an
injective encoding, so distinct keys or parameters yield distinct strings. -/
def componentTranslate : String := "assign"

/-- `translate.instant(key)` for parameterless keys: modelled from the spec
as the key itself (see `componentTranslate`). -/
def translateInstant (key : String) : String := key

/-- `translate.instant('core.warningofflinedatadeleted', {component, name,
error})`: modelled from the spec as an injective encoding of the key and its
three parameters. -/
def warningOfflineDataDeleted (component name error : String) : String :=
  "core.warningofflinedatadeleted|" ++ component ++ "|" ++ name ++ "|" ++ error

/-- Append `message` to `warnings` unless already present
(`if (warnings.indexOf(message) == -1) warnings.push(message)`). -/
def pushWarning (warnings : List String) (message : String) : List String :=
  if message ∈ warnings then warnings else warnings ++ [message]

/-- The assignment fields this provider reads: `id`, `cmid`, `name`,
`submissiondrafts`. -/
structure Assign where
  id : Nat
  cmid : Nat
  name : String
  submissiondrafts : Bool
deriving Repr, DecidableEq

/-- A pending offline submission edit as read by `syncSubmission` and
`syncAssign`: owner, course, the server `timemodified` captured at edit time
(`onlinetimemodified`), the `submitted` flag and the acceptance statement
forwarded to `submitForGradingOnline`.  The plugin-specific payload fields
are consumed only by the submission delegate, which is outside the excerpt
(see `SubmissionEnv.prepareResult`). -/
structure OfflineSubmission where
  userid : Nat
  courseid : Nat
  onlinetimemodified : Nat
  submitted : Bool
  submissionstatement : Bool
deriving Repr, DecidableEq

/-- The server submission object extracted from the submission status
(`getSubmissionObjectFromAttempt(assign, status.lastattempt)`, a pure
accessor of the assign provider outside the excerpt): its current
`timemodified` and its plugin list, modelled by opaque plugin ids. -/
structure ServerSubmission where
  timemodified : Nat
  plugins : List Nat
deriving Repr, DecidableEq

/-- Ordered trace of collaborator calls issued by an embedded run.  Local
offline-store reads (`getAssignSubmissions`, `getAssignSubmissionsGrade`,
`hasAssignOfflineData`) are modelled by the environment and not traced;
deletions, uploads, reads of server state, `setSyncTime` and the
`AUTO_SYNCED` event are traced.   `submitGradingFormOnline` records the
grade value it uploads (the remaining arguments are copied verbatim from
the offline record). -/
inductive Call where
  | getSubmissionStatus (assignId userId : Nat) : Call
  | saveSubmissionOnline (assignId : Nat) : Call
  | submitForGradingOnline (assignId : Nat) (acceptStatement : Bool) : Call
  | getGradeModuleItems (courseId cmid userId : Nat) : Call
  | getModuleBasicGradeInfo (cmid : Nat) : Call
  | submitGradingFormOnline (assignId userId : Nat) (grade : Option ℚ) : Call
  | getAssignmentById (courseId assignId : Nat) : Call
  | invalidateContent (cmid courseId : Nat) : Call
  | deleteSubmission (assignId userId : Nat) : Call
  | deletePluginOfflineData (assignId userId : Nat) : Call
  | deleteSubmissionGrade (assignId userId : Nat) : Call
  | setSyncTime (assignId : Nat) : Call
  | triggerAutoSynced (assignId : Nat) (warnings : List String) : Call
deriving Repr, DecidableEq

/-- Environment of one `syncSubmission` run: the outcomes of the external
calls it may issue.  `prepareResult` is the combined outcome of the
`preparePluginSyncData` delegate calls (delegate outside the excerpt): on
success, the assembled `pluginData` object as a key/value list. -/
structure SubmissionEnv where
  statusResult : Except RejectVal ServerSubmission
  prepareResult : Except RejectVal (List (String × String))
  saveResult : Except RejectVal Unit
  submitForGradingResult : Except RejectVal Unit

/-- Outcome of one `syncSubmission` run: the promise result, the warnings
list after the run (the source mutates the caller's array in place), and the
trace of calls issued. -/
structure SubSyncOut where
  result : Except RejectVal Unit
  warnings : List String
  calls : List Call

/-- Tail of `syncSubmission` from the `.then` that deletes the offline data:
`deleteSubmission`, one `deletePluginOfflineData` per plugin of the server
submission, then—`if (discardError)`, i.e. when the string is set and
nonempty—the deduplicated warning push. -/
def finishSubmission (assign : Assign) (off : OfflineSubmission) (submission : ServerSubmission)
    (discardError : String) (warnings : List String) (calls : List Call) : SubSyncOut :=
  let calls := calls ++ [Call.deleteSubmission assign.id off.userid]
      ++ submission.plugins.map (fun _ => Call.deletePluginOfflineData assign.id off.userid)
  if discardError = "" then
    { result := Except.ok (), warnings := warnings, calls := calls }
  else
    let message := warningOfflineDataDeleted componentTranslate assign.name discardError
    { result := Except.ok (), warnings := pushWarning warnings message, calls := calls }

/-- `syncSubmission(assign, offlineData, warnings, siteId)`.

Control flow of the source: fetch the submission status; if the server
`timemodified` differs from the captured `onlinetimemodified`, set
`discardError` to the localized conflict warning and skip the upload;
otherwise prepare the plugin payload, save it online when nonempty, submit
for grading when `assign.submissiondrafts && offlineData.submitted`, and
refresh the cached status without awaiting it.  A failure in the
prepare/save/submit chain is caught: a web-service error becomes a
`discardError`, anything else rejects the whole run (skipping the delete
phase).  On every non-rejected path the offline data is then deleted and, if
`discardError` is set, a deduplicated warning is pushed. -/
def syncSubmission (env : SubmissionEnv) (assign : Assign) (offlineData : OfflineSubmission)
    (warnings : List String) : SubSyncOut :=
  let calls0 := [Call.getSubmissionStatus assign.id offlineData.userid]
  match env.statusResult with
  | Except.error e => { result := Except.error e, warnings := warnings, calls := calls0 }
  | Except.ok submission =>
    if submission.timemodified ≠ offlineData.onlinetimemodified then
      -- The submission was modified in Moodle, discard the submission.
      finishSubmission assign offlineData submission
        (translateInstant "addon.mod_assign.warningsubmissionmodified") warnings calls0
    else
      match env.prepareResult with
      | Except.error e =>
        if errTruthyAndWS e then
          finishSubmission assign offlineData submission (errorMessageChain e) warnings calls0
        else
          { result := Except.error e, warnings := warnings, calls := calls0 }
      | Except.ok pluginData =>
        let afterSave : Except RejectVal Unit × List Call :=
          if pluginData.length = 0 then
            -- Nothing to save.
            (Except.ok (), calls0)
          else
            (env.saveResult, calls0 ++ [Call.saveSubmissionOnline assign.id])
        let afterSubmit : Except RejectVal Unit × List Call :=
          match afterSave with
          | (Except.error e, cs) => (Except.error e, cs)
          | (Except.ok _, cs) =>
            if assign.submissiondrafts ∧ offlineData.submitted then
              (env.submitForGradingResult,
                cs ++ [Call.submitForGradingOnline assign.id offlineData.submissionstatement])
            else
              (Except.ok (), cs)
        match afterSubmit with
        | (Except.ok _, cs) =>
          -- Fire-and-forget cache refresh, then the delete phase with no discard.
          finishSubmission assign offlineData submission "" warnings
            (cs ++ [Call.getSubmissionStatus assign.id offlineData.userid])
        | (Except.error e, cs) =>
          if errTruthyAndWS e then
            finishSubmission assign offlineData submission (errorMessageChain e) warnings cs
          else
            { result := Except.error e, warnings := warnings, calls := cs }

/-- A pending offline grade edit as read by `syncSubmissionGrade`: owner,
course, capture time, the grade value (a number or `null`), the grading
options forwarded verbatim to `submitGradingFormOnline`, and the outcome map
(outcome item number to selected scale index).  The free-form `plugindata`
object is forwarded verbatim and not modelled. -/
structure OfflineGrade where
  userid : Nat
  courseid : Nat
  timemodified : Nat
  grade : Option ℚ
  attemptnumber : Nat
  addattempt : Bool
  workflowstate : String
  applytoall : Bool
  outcomes : List (Nat × Int)
deriving Repr, DecidableEq

/-- The feedback part of a submission status:
`status.feedback.gradeddate || status.feedback.grade.timemodified`, with `0`
modelling an absent (falsy) timestamp. -/
structure Feedback where
  gradeddate : Nat
  gradeTimemodified : Nat
deriving Repr, DecidableEq

/-- The part of a `getSubmissionStatus` response read by
`syncSubmissionGrade`. -/
structure GradeStatus where
  feedback : Option Feedback
deriving Repr, DecidableEq

/-- `status.feedback && (status.feedback.gradeddate ||
status.feedback.grade.timemodified)`: a missing feedback or timestamp is
falsy, and a falsy value compares `> x` as `0 > x` does (i.e. never, for
natural `x`). -/
def feedbackTime : Option Feedback → Nat
  | none => 0
  | some f => if f.gradeddate ≠ 0 then f.gradeddate else f.gradeTimemodified

/-- A gradebook entry returned by `getGradeModuleItems`: grading date,
outcome/scale ids (`0` models a falsy/absent id), the formatted grade string
and the outcome item number. -/
structure GradeItem where
  gradedategraded : Nat
  outcomeid : Nat
  scaleid : Nat
  gradeformatted : String
  itemnumber : Nat
deriving Repr, DecidableEq

/-- An outcome of the module grade info: its scale options string and the
selected option (`""` models an absent, falsy scale). -/
structure Outcome where
  scale : String
  selected : String
deriving Repr, DecidableEq

/-- The module grade info returned by `getModuleBasicGradeInfo`: the scale
options string (`""` when falsy/absent) and the outcome list (`none` when the
`outcomes` field is absent; a present empty array is truthy in JavaScript,
hence the `Option`). -/
structure GradeInfo where
  scale : String
  outcomes : Option (List Outcome)
deriving Repr, DecidableEq

/-- `offlineData.outcomes[k] = v` on the outcome map. -/
def setOutcome (outcomes : List (Nat × Int)) (k : Nat) (v : Int) : List (Nat × Int) :=
  if outcomes.any (fun p => p.1 = k) then
    outcomes.map (fun p => if p.1 = k then (k, v) else p)
  else
    outcomes ++ [(k, v)]

/-- One iteration of the inner `gradeInfo.outcomes.forEach` loop of the
gradebook override: `p` is an (index, outcome) pair of the enumerated
outcome list. -/
def applyOutcomeItem (grade : GradeItem) (off2 : OfflineGrade) (p : Nat × Outcome) : OfflineGrade :=
  if p.2.scale ≠ "" ∧ grade.itemnumber = p.1 then
    { off2 with outcomes :=
        setOutcome off2.outcomes grade.itemnumber (getSelectedScaleId p.2.scale p.2.selected) }
  else off2

/-- One iteration of the `grades.forEach` gradebook-override loop of
`syncSubmissionGrade`.  `tm` is `offlineData.timemodified`, which no branch
mutates, so it is threaded separately from the mutated record.  The source
guards the scale read (`gradeInfo && gradeInfo.scale`) but reads
`gradeInfo.outcomes` without a null check on `gradeInfo` in the outcome
branch: with `gradeInfo` null, outcomes editing enabled and a sufficiently
recent outcome-carrying entry, the read throws a TypeError, modelled as
`Except.error RejectVal.typeError`; the throw rejects the enclosing promise
callback, so the loop stops at that entry. -/
def applyGradebookItem (gradeInfo : Option GradeInfo) (outcomesEditEnabled : Bool) (tm : Nat)
    (off : OfflineGrade) (grade : GradeItem) : Except RejectVal OfflineGrade :=
  if tm ≤ grade.gradedategraded then
    if grade.outcomeid = 0 ∧ grade.scaleid = 0 then
      Except.ok
        (match gradeInfo with
        | some gi =>
          if gi.scale ≠ "" then
            { off with grade := some (mkRat (getSelectedScaleId gi.scale grade.gradeformatted) 1) }
          else
            { off with grade := parseFloatOrNull grade.gradeformatted }
        | none => { off with grade := parseFloatOrNull grade.gradeformatted })
    else if grade.outcomeid ≠ 0 ∧ outcomesEditEnabled = true then
      match gradeInfo with
      | some gi =>
        match gi.outcomes with
        | some outs => Except.ok ((outs.enum).foldl (applyOutcomeItem grade) off)
        | none => Except.ok off
      | none =>
        -- `gradeInfo.outcomes` on a null gradeInfo throws.
        Except.error RejectVal.typeError
    else
      Except.ok off
  else
    Except.ok off

/-- One fold step of the override loop: once an iteration has thrown, the
loop is abandoned and the error propagates. -/
def applyGradebookStep (gradeInfo : Option GradeInfo) (outcomesEditEnabled : Bool) (tm : Nat)
    (acc : Except RejectVal OfflineGrade) (grade : GradeItem) : Except RejectVal OfflineGrade :=
  match acc with
  | Except.error e => Except.error e
  | Except.ok o => applyGradebookItem gradeInfo outcomesEditEnabled tm o grade

/-- The whole `grades.forEach` gradebook-override loop: the adjusted offline
grade record, or the TypeError thrown at the first crashing entry. -/
def applyGradebook (gradeInfo : Option GradeInfo) (outcomesEditEnabled : Bool) (tm : Nat)
    (grades : List GradeItem) (off : OfflineGrade) : Except RejectVal OfflineGrade :=
  grades.foldl (applyGradebookStep gradeInfo outcomesEditEnabled tm) (Except.ok off)

/-- The inputs at which one override-loop iteration performs the unguarded
`gradeInfo.outcomes` read on a null `gradeInfo` and throws: the module grade
info is null, outcomes editing is enabled, and the entry is recent enough
and carries an outcome id (which also sends it past the plain branch). -/
def outcomeCrash (gradeInfo : Option GradeInfo) (outcomesEditEnabled : Bool) (tm : Nat)
    (grade : GradeItem) : Bool :=
  gradeInfo.isNone && outcomesEditEnabled && decide (tm ≤ grade.gradedategraded)
    && decide (grade.outcomeid ≠ 0)

/-- The grade value the override loop derives from one gradebook entry:
the selected scale index when the module grade info carries a scale, the
numeric parse of `gradeformatted` otherwise. -/
def derivedGradeValue (gradeInfo : Option GradeInfo) (g : GradeItem) : Option ℚ :=
  match gradeInfo with
  | some gi =>
    if gi.scale ≠ "" then some (mkRat (getSelectedScaleId gi.scale g.gradeformatted) 1)
    else parseFloatOrNull g.gradeformatted
  | none => parseFloatOrNull g.gradeformatted

/-- The last gradebook entry of the list whose grading date is at least `tm`
and which carries neither an outcome id nor a scale id: the entry whose
derived value the override loop leaves in `offlineData.grade`. -/
def lastPlain (tm : Nat) : List GradeItem → Option GradeItem
  | [] => none
  | g :: r =>
    match lastPlain tm r with
    | some h => some h
    | none =>
      if tm ≤ g.gradedategraded ∧ g.outcomeid = 0 ∧ g.scaleid = 0 then some g else none

/-- Environment of one `syncSubmissionGrade` run: outcomes of the external
calls it may issue, plus the `isOutcomesEditEnabled()` flag of the assign
provider (outside the excerpt). -/
structure GradeEnv where
  statusResult : Except RejectVal GradeStatus
  gradeItemsResult : Except RejectVal (List GradeItem)
  gradeInfoResult : Except RejectVal (Option GradeInfo)
  submitResult : Except RejectVal Unit
  outcomesEditEnabled : Bool

/-- Outcome of one `syncSubmissionGrade` run. -/
structure GradeSyncOut where
  result : Except RejectVal Unit
  warnings : List String
  calls : List Call

/-- Tail of `syncSubmissionGrade` from the `.then` that deletes the offline
grade: `deleteSubmissionGrade`, then the deduplicated warning push when
`discardError` is set and nonempty. -/
def finishGrade (assign : Assign) (userId : Nat) (discardError : String)
    (warnings : List String) (calls : List Call) : GradeSyncOut :=
  let calls := calls ++ [Call.deleteSubmissionGrade assign.id userId]
  if discardError = "" then
    { result := Except.ok (), warnings := warnings, calls := calls }
  else
    let message := warningOfflineDataDeleted componentTranslate assign.name discardError
    { result := Except.ok (), warnings := pushWarning warnings message, calls := calls }

/-- `syncSubmissionGrade(assign, offlineData, warnings, courseId, siteId)`.

Control flow of the source: fetch the submission status; if the feedback
timestamp is newer than the offline edit's `timemodified`, set
`discardError` to the localized conflict warning and skip everything else;
otherwise fetch the gradebook items and the module grade info, override the
offline grade/outcome values from gradebook entries graded at or after the
offline `timemodified`, and upload via `submitGradingFormOnline` (the cache
refresh afterwards is fire-and-forget).  A TypeError thrown inside the
override loop (unguarded `gradeInfo.outcomes` read on a null `gradeInfo`)
rejects the chain before the upload — no catch covers it, so nothing is
uploaded or deleted.  An upload failure is caught: a web-service error
becomes a `discardError`, anything else rejects the whole run (skipping the
delete phase).  On every non-rejected path the offline grade is then
deleted and, if `discardError` is set, a deduplicated warning is pushed. -/
def syncSubmissionGrade (env : GradeEnv) (assign : Assign) (offlineData : OfflineGrade)
    (warnings : List String) (courseId : Nat) : GradeSyncOut :=
  let userId := offlineData.userid
  let calls0 := [Call.getSubmissionStatus assign.id userId]
  match env.statusResult with
  | Except.error e => { result := Except.error e, warnings := warnings, calls := calls0 }
  | Except.ok status =>
    if offlineData.timemodified < feedbackTime status.feedback then
      -- The submission grade was modified in Moodle, discard it.
      finishGrade assign userId
        (translateInstant "addon.mod_assign.warningsubmissiongrademodified") warnings calls0
    else
      match env.gradeItemsResult with
      | Except.error e =>
        { result := Except.error e, warnings := warnings,
          calls := calls0 ++ [Call.getGradeModuleItems courseId assign.cmid userId] }
      | Except.ok grades =>
        let calls1 := calls0 ++ [Call.getGradeModuleItems courseId assign.cmid userId]
        match env.gradeInfoResult with
        | Except.error e =>
          { result := Except.error e, warnings := warnings,
            calls := calls1 ++ [Call.getModuleBasicGradeInfo assign.cmid] }
        | Except.ok gradeInfo =>
          let calls2 := calls1 ++ [Call.getModuleBasicGradeInfo assign.cmid]
          match applyGradebook gradeInfo env.outcomesEditEnabled offlineData.timemodified
              grades offlineData with
          | Except.error e =>
            -- The override loop threw: the chain rejects before the upload,
            -- nothing is uploaded or deleted.
            { result := Except.error e, warnings := warnings, calls := calls2 }
          | Except.ok adjusted =>
            let calls3 := calls2 ++ [Call.submitGradingFormOnline assign.id userId adjusted.grade]
            match env.submitResult with
            | Except.ok _ =>
              -- Fire-and-forget cache refresh, then the delete phase with no discard.
              finishGrade assign userId "" warnings
                (calls3 ++ [Call.getSubmissionStatus assign.id userId])
            | Except.error e =>
              if errTruthyAndWS e then
                finishGrade assign userId (errorMessageChain e) warnings calls3
              else
                { result := Except.error e, warnings := warnings, calls := calls3 }

/-- The aggregated result of an assign sync (`AddonModAssignSyncResult`). -/
structure AddonModAssignSyncResult where
  warnings : List String
  updated : Bool
deriving Repr, DecidableEq

/-- Modelled from the spec: the in-flight-operation registry of the base
sync class (`isSyncing` / `getOngoingSync` / `addOngoingSync`, outside the
excerpt), "keyed by (entity id, site)"; per the spec, "concurrent callers
for the same key observe the same eventual result", so an entry maps its key
to the eventual outcome of the ongoing sync's promise. -/
def SyncRegistry : Type :=
  List ((Nat × String) × Except RejectVal AddonModAssignSyncResult)

/-- Modelled from the spec: `isSyncing`/`getOngoingSync` lookup in the
in-flight registry. -/
def lookupOngoing (reg : SyncRegistry) (assignId : Nat) (siteId : String) :
    Option (Except RejectVal AddonModAssignSyncResult) :=
  (reg.find? (fun e => decide (e.1 = (assignId, siteId)))).map (fun e => e.2)

/-- Environment of one `syncAssign` run: the current site, the block flag
(`syncProvider.isBlocked`, outside the excerpt), the pending offline
submissions and grades (the store accessors resolve with these lists; their
rejection is caught in the source and mapped to `[]`, so a list is the
general shape), the connectivity flag, the `getAssignmentById` outcome, and
per-user environments for the per-edit reconciliations. -/
structure AssignEnv where
  currentSiteId : String
  blocked : Bool
  offlineSubmissions : List OfflineSubmission
  offlineGrades : List OfflineGrade
  isOnline : Bool
  assignResult : Except RejectVal Assign
  submissionEnv : Nat → SubmissionEnv
  gradeEnv : Nat → GradeEnv

/-- Outcome of one `syncAssign` run. -/
structure AssignSyncOut where
  result : Except RejectVal AddonModAssignSyncResult
  calls : List Call

/-- Accumulator of the `Promise.all` over the per-edit reconciliations:
the shared warnings array, the concatenated call trace, the `updated` flag
(set by the `.then` of every fulfilled per-edit promise), and the first
rejection reason, if any (all member promises run to completion even when
one rejects). -/
structure EditsAcc where
  warnings : List String
  calls : List Call
  updated : Bool
  firstError : Option RejectVal

/-- Rejection reason of a settled promise, if it rejected. -/
def errOpt : Except RejectVal Unit → Option RejectVal
  | Except.ok _ => none
  | Except.error e => some e

/-- Whether a settled promise fulfilled. -/
def isOk : Except RejectVal Unit → Bool
  | Except.ok _ => true
  | Except.error _ => false

/-- One pending submission reconciled inside the `Promise.all` of
`syncAssign`, with the shared accumulator updated. -/
def subEditStep (env : AssignEnv) (assign : Assign) (acc : EditsAcc)
    (sub : OfflineSubmission) : EditsAcc :=
  let out := syncSubmission (env.submissionEnv sub.userid) assign sub acc.warnings
  { warnings := out.warnings, calls := acc.calls ++ out.calls,
    updated := acc.updated || isOk out.result,
    firstError := acc.firstError <|> errOpt out.result }

/-- One pending grade reconciled inside the `Promise.all` of `syncAssign`,
with the shared accumulator updated. -/
def gradeEditStep (env : AssignEnv) (assign : Assign) (courseId : Nat) (acc : EditsAcc)
    (g : OfflineGrade) : EditsAcc :=
  let out := syncSubmissionGrade (env.gradeEnv g.userid) assign g acc.warnings courseId
  { warnings := out.warnings, calls := acc.calls ++ out.calls,
    updated := acc.updated || isOk out.result,
    firstError := acc.firstError <|> errOpt out.result }

/-- The per-edit phase of `syncAssign`: every pending submission and then
every pending grade is reconciled (creation order of the promises), sharing
the warnings array and setting `updated` on each per-edit fulfillment. -/
def runEdits (env : AssignEnv) (assign : Assign) (courseId : Nat)
    (subs : List OfflineSubmission) (grades : List OfflineGrade) : EditsAcc :=
  let acc0 : EditsAcc := { warnings := [], calls := [], updated := false, firstError := none }
  grades.foldl (gradeEditStep env assign courseId) (subs.foldl (subEditStep env assign) acc0)

/-- `syncAssign(assignId, siteId)`.

Control flow of the source: default the site; if a sync for this
(assign, site) key is ongoing, return its promise; reject immediately when
the entity is blocked; read the pending offline submissions and grades; with
nothing pending, resolve trivially (after `setSyncTime`); otherwise reject
with `null` when offline; otherwise fetch the assignment, reconcile every
pending edit, invalidate the cached content when anything was updated, set
the sync time and resolve with the aggregated result.  A rejection of the
per-edit `Promise.all` or of `getAssignmentById` skips `invalidateContent`
and `setSyncTime` and rejects the returned promise. -/
def syncAssign (reg : SyncRegistry) (env : AssignEnv) (assignId : Nat)
    (siteId : Option String) : AssignSyncOut :=
  let site := siteId.getD env.currentSiteId
  match lookupOngoing reg assignId site with
  | some ongoing =>
    -- There's already a sync ongoing for this assign, return the promise.
    { result := ongoing, calls := [] }
  | none =>
    if env.blocked then
      { result := Except.error (RejectVal.msg (translateInstant "core.errorsyncblocked")),
        calls := [] }
    else
      let submissions := env.offlineSubmissions
      let grades := env.offlineGrades
      if submissions.length = 0 ∧ grades.length = 0 then
        -- Nothing to sync.
        { result := Except.ok { warnings := [], updated := false },
          calls := [Call.setSyncTime assignId] }
      else if env.isOnline = false then
        -- Cannot sync in offline.
        { result := Except.error RejectVal.nullErr, calls := [] }
      else
        let courseId :=
          if submissions.length > 0 then ((submissions.head?).map (fun s => s.courseid)).getD 0
          else ((grades.head?).map (fun g => g.courseid)).getD 0
        let calls0 := [Call.getAssignmentById courseId assignId]
        match env.assignResult with
        | Except.error e => { result := Except.error e, calls := calls0 }
        | Except.ok assign =>
          let acc := runEdits env assign courseId submissions grades
          match acc.firstError with
          | some e => { result := Except.error e, calls := calls0 ++ acc.calls }
          | none =>
            let invalidate :=
              if acc.updated then [Call.invalidateContent assign.cmid courseId] else []
            { result := Except.ok { warnings := acc.warnings, updated := acc.updated },
              calls := calls0 ++ acc.calls ++ invalidate ++ [Call.setSyncTime assignId] }

/-- Modelled from the spec: the sync-time bookkeeping of the base sync class
(`isSyncNeeded` / `setSyncTime`, outside the excerpt): the time of the last
successful sync of the key, the current time, and the provider-wide minimum
interval. -/
structure SyncTimeEnv where
  now : Nat
  lastSync : Option Nat
  syncInterval : Nat

/-- Modelled from the spec: `isSyncNeeded` — "runs sync only if the elapsed
time since last successful sync exceeds a provider-wide minimum interval";
with no recorded last sync, a sync is needed. -/
def isSyncNeeded (t : SyncTimeEnv) : Bool :=
  match t.lastSync with
  | none => true
  | some last => decide (t.syncInterval < t.now - last)

/-- `syncAssignIfNeeded(assignId, siteId)`: run `syncAssign` when needed,
otherwise resolve with `undefined` (`none`). -/
def syncAssignIfNeeded (t : SyncTimeEnv) (reg : SyncRegistry) (env : AssignEnv)
    (assignId : Nat) (siteId : Option String) : Option AssignSyncOut :=
  if isSyncNeeded t then some (syncAssign reg env assignId siteId) else none

/-- Modelled from the spec: the last-sync record after a `syncAssign` run —
`setSyncTime` (traced as `Call.setSyncTime`) stores the current time for the
key; a run that rejected before reaching it leaves the record unchanged. -/
def lastSyncAfter (t : SyncTimeEnv) (assignId : Nat) (out : AssignSyncOut) : Option Nat :=
  if Call.setSyncTime assignId ∈ out.calls then some t.now else t.lastSync

/-- `syncAllAssignmentsFunc(siteId)` restricted to its per-assignment body:
for every assignment id with offline data (the `getAllAssigns` enumeration,
supplied here as the job list together with each job's environments),
`syncAssignIfNeeded` is invoked, and for each job whose sync ran and
resolved with `updated` set, the `AUTO_SYNCED` event is emitted with the
assign id and the warnings.  The returned trace concatenates all jobs'
calls. -/
def syncAllAssignmentsFunc (jobs : List (Nat × SyncTimeEnv × SyncRegistry × AssignEnv))
    (siteId : Option String) : List Call :=
  jobs.foldl (fun acc job =>
    match syncAssignIfNeeded job.2.1 job.2.2.1 job.2.2.2 job.1 siteId with
    | none => acc
    | some out =>
      match out.result with
      | Except.error _ => acc ++ out.calls
      | Except.ok r =>
        if r.updated then acc ++ out.calls ++ [Call.triggerAutoSynced job.1 r.warnings]
        else acc ++ out.calls) []

/-- A submission environment in which the status and the plugin preparation
succeed but saving the submission online fails with `e`. -/
def subEnvSaveFail (sub : ServerSubmission) (pd : List (String × String))
    (e : RejectVal) : SubmissionEnv :=
  { statusResult := Except.ok sub, prepareResult := Except.ok pd,
    saveResult := Except.error e, submitForGradingResult := Except.ok () }

/-- A submission environment in which everything up to the save succeeds but
submitting for grading fails with `e`. -/
def subEnvSubmitFail (sub : ServerSubmission) (pd : List (String × String))
    (e : RejectVal) : SubmissionEnv :=
  { statusResult := Except.ok sub, prepareResult := Except.ok pd,
    saveResult := Except.ok (), submitForGradingResult := Except.error e }

/-- A grade environment in which the status, gradebook and grade-info reads
succeed but the grading-form upload fails with `e`. -/
def gradeEnvSubmitFail (gstatus : GradeStatus) (gitems : List GradeItem)
    (ginfo : Option GradeInfo) (oe : Bool) (e : RejectVal) : GradeEnv :=
  { statusResult := Except.ok gstatus, gradeItemsResult := Except.ok gitems,
    gradeInfoResult := Except.ok ginfo, submitResult := Except.error e,
    outcomesEditEnabled := oe }

/-- The warning message produced when a stale offline submission is
discarded. -/
def staleWarning (assign : Assign) : String :=
  warningOfflineDataDeleted componentTranslate assign.name
    (translateInstant "addon.mod_assign.warningsubmissionmodified")

/-- An assignment-sync environment holding exactly one pending submission
whose reconciliation environment is `senv`: the shape of a conflict-only
sync when `senv` reports a modified server submission. -/
def conflictOnlyEnv (site : String) (assign : Assign) (off : OfflineSubmission)
    (senv : SubmissionEnv) (genv : GradeEnv) : AssignEnv :=
  { currentSiteId := site, blocked := false, offlineSubmissions := [off],
    offlineGrades := [], isOnline := true, assignResult := Except.ok assign,
    submissionEnv := fun _ => senv, gradeEnv := fun _ => genv }

/-! ### Concrete fixtures used by witnesses and counterexamples -/

/-- A sample assignment. -/
def sampleAssign : Assign := { id := 1, cmid := 2, name := "A", submissiondrafts := false }

/-- A sample assignment with submission drafts enabled. -/
def draftsAssign : Assign := { id := 1, cmid := 2, name := "A", submissiondrafts := true }

/-- A sample offline submission edit captured at server time 10. -/
def sampleOff : OfflineSubmission :=
  { userid := 3, courseid := 4, onlinetimemodified := 10, submitted := false,
    submissionstatement := false }

/-- A sample offline submission edit the user also submitted manually. -/
def submittedOff : OfflineSubmission :=
  { userid := 3, courseid := 4, onlinetimemodified := 10, submitted := true,
    submissionstatement := true }

/-- A submission environment whose server state matches the captured
timestamp and whose calls all succeed. -/
def okSubEnv : SubmissionEnv :=
  { statusResult := Except.ok { timemodified := 10, plugins := [] },
    prepareResult := Except.ok [], saveResult := Except.ok (),
    submitForGradingResult := Except.ok () }

/-- A submission environment whose server state was modified (time 20
against a captured 10). -/
def staleSubEnv : SubmissionEnv :=
  { statusResult := Except.ok { timemodified := 20, plugins := [] },
    prepareResult := Except.ok [], saveResult := Except.ok (),
    submitForGradingResult := Except.ok () }

/-- A grade environment with no feedback, no gradebook rows, no grade info,
and a succeeding upload. -/
def okGradeEnv : GradeEnv :=
  { statusResult := Except.ok { feedback := none }, gradeItemsResult := Except.ok [],
    gradeInfoResult := Except.ok none, submitResult := Except.ok (),
    outcomesEditEnabled := false }

/-- An assignment-sync environment with no pending offline data. -/
def emptyAssignEnv : AssignEnv :=
  { currentSiteId := "siteA", blocked := false, offlineSubmissions := [],
    offlineGrades := [], isOnline := true, assignResult := Except.ok sampleAssign,
    submissionEnv := fun _ => okSubEnv, gradeEnv := fun _ => okGradeEnv }

/-- An assignment-sync environment with one pending submission on an offline
device. -/
def offlinePendingEnv : AssignEnv :=
  { emptyAssignEnv with offlineSubmissions := [sampleOff], isOnline := false }

/-- A web-service error carrying a message. -/
def wsError : RejectVal :=
  RejectVal.err
    { isWebServiceError := true, message := "boom", error := "",
      content := "", body := "" }

/-- A web-service error all of whose message fields are empty: its message
chain is the empty string. -/
def wsErrorNoMessage : RejectVal :=
  RejectVal.err
    { isWebServiceError := true, message := "", error := "",
      content := "", body := "" }

/-- A pending offline grade edit with a stored grade of 7, captured at
time 50. -/
def sampleGradeOff : OfflineGrade :=
  { userid := 3, courseid := 4, timemodified := 50, grade := some 7,
    attemptnumber := 0, addattempt := false, workflowstate := "graded",
    applytoall := false, outcomes := [] }

/-- A gradebook entry graded later (time 100) than the offline edit, carrying
a scale id, so the override loop skips it. -/
def scaleGradeItem : GradeItem :=
  { gradedategraded := 100, outcomeid := 0, scaleid := 5, gradeformatted := "3",
    itemnumber := 0 }

/-- A plain gradebook entry (no outcome id, no scale id) graded later
(time 100) than the offline edit. -/
def plainGradeItem : GradeItem :=
  { gradedategraded := 100, outcomeid := 0, scaleid := 0, gradeformatted := "3",
    itemnumber := 0 }

/-- A grade environment whose gradebook holds the newer scale-carrying
entry. -/
def scaleItemGradeEnv : GradeEnv :=
  { statusResult := Except.ok { feedback := none },
    gradeItemsResult := Except.ok [scaleGradeItem], gradeInfoResult := Except.ok none,
    submitResult := Except.ok (), outcomesEditEnabled := false }

/-- A grade environment whose gradebook holds the newer plain entry. -/
def plainItemGradeEnv : GradeEnv :=
  { statusResult := Except.ok { feedback := none },
    gradeItemsResult := Except.ok [plainGradeItem], gradeInfoResult := Except.ok none,
    submitResult := Except.ok (), outcomesEditEnabled := false }

/-! ### General lemmas about the embedding -/

/-- `pushWarning` always ends with its message in the list. -/
theorem pushWarning_mem_self (warnings : List String) (m : String) : m ∈ pushWarning warnings m := by
  unfold pushWarning
  split
  · assumption
  · simp

/-- Pushing on the empty list yields the singleton. -/
theorem pushWarning_nil (m : String) : pushWarning [] m = [m] := rfl

/-- `pushWarning` preserves duplicate-freedom. -/
theorem pushWarning_nodup (warnings : List String) (m : String) (h : warnings.Nodup) :
    (pushWarning warnings m).Nodup := by
  unfold pushWarning
  split
  · exact h
  next hm =>
    simp only [List.nodup_append, List.nodup_singleton, List.disjoint_left, List.mem_singleton]
    exact ⟨h, trivial, fun a ha hc => hm (hc ▸ ha)⟩

/-- The stale-submission path of `syncSubmission`: when the server
submission's `timemodified` differs from the captured `onlinetimemodified`,
the run resolves, deletes the offline data, never uploads, and pushes (at
most) the conflict warning. -/
theorem syncSubmission_stale (env : SubmissionEnv) (assign : Assign)
    (off : OfflineSubmission) (warnings : List String) (sub : ServerSubmission)
    (hstat : env.statusResult = Except.ok sub)
    (hstale : sub.timemodified ≠ off.onlinetimemodified) :
    syncSubmission env assign off warnings =
      { result := Except.ok (),
        warnings := pushWarning warnings (warningOfflineDataDeleted componentTranslate
          assign.name (translateInstant "addon.mod_assign.warningsubmissionmodified")),
        calls := [Call.getSubmissionStatus assign.id off.userid,
            Call.deleteSubmission assign.id off.userid]
          ++ sub.plugins.map (fun _ => Call.deletePluginOfflineData assign.id off.userid) } := by
  simp only [syncSubmission, hstat]
  rw [if_pos hstale]
  unfold finishSubmission translateInstant
  rw [if_neg (by decide : ¬ ("addon.mod_assign.warningsubmissionmodified" = ""))]
  rfl

/-- The delete phase of `syncSubmission` either leaves the warnings alone or
pushes one deduplicated message. -/
theorem finishSubmission_warnings_shape (assign : Assign) (off : OfflineSubmission)
    (sub : ServerSubmission) (d : String) (warnings : List String) (cs : List Call) :
    (finishSubmission assign off sub d warnings cs).warnings = warnings ∨
    ∃ m, (finishSubmission assign off sub d warnings cs).warnings = pushWarning warnings m := by
  unfold finishSubmission
  split
  · left; rfl
  · right; exact ⟨_, rfl⟩

/-- Any `syncSubmission` run either leaves the warnings alone or pushes one
deduplicated message. -/
theorem syncSubmission_warnings_shape (env : SubmissionEnv) (assign : Assign)
    (off : OfflineSubmission) (warnings : List String) :
    (syncSubmission env assign off warnings).warnings = warnings ∨
    ∃ m, (syncSubmission env assign off warnings).warnings = pushWarning warnings m := by
  unfold syncSubmission
  dsimp only
  repeat' split
  all_goals first
    | (left; rfl)
    | apply finishSubmission_warnings_shape

/-- The delete phase of `syncSubmissionGrade` either leaves the warnings
alone or pushes one deduplicated message. -/
theorem finishGrade_warnings_shape (assign : Assign) (userId : Nat) (d : String)
    (warnings : List String) (cs : List Call) :
    (finishGrade assign userId d warnings cs).warnings = warnings ∨
    ∃ m, (finishGrade assign userId d warnings cs).warnings = pushWarning warnings m := by
  unfold finishGrade
  split
  · left; rfl
  · right; exact ⟨_, rfl⟩

/-- Any `syncSubmissionGrade` run either leaves the warnings alone or pushes
one deduplicated message. -/
theorem syncSubmissionGrade_warnings_shape (env : GradeEnv) (assign : Assign)
    (goff : OfflineGrade) (warnings : List String) (courseId : Nat) :
    (syncSubmissionGrade env assign goff warnings courseId).warnings = warnings ∨
    ∃ m, (syncSubmissionGrade env assign goff warnings courseId).warnings
      = pushWarning warnings m := by
  unfold syncSubmissionGrade
  dsimp only
  repeat' split
  all_goals first
    | (left; rfl)
    | apply finishGrade_warnings_shape

/-- `syncSubmission` preserves duplicate-freedom of the warnings. -/
theorem syncSubmission_warnings_nodup (env : SubmissionEnv) (assign : Assign)
    (off : OfflineSubmission) (warnings : List String) (h : warnings.Nodup) :
    (syncSubmission env assign off warnings).warnings.Nodup := by
  cases syncSubmission_warnings_shape env assign off warnings with
  | inl he => rw [he]; exact h
  | inr hex =>
    obtain ⟨m, he⟩ := hex
    rw [he]
    exact pushWarning_nodup warnings m h

/-- `syncSubmissionGrade` preserves duplicate-freedom of the warnings. -/
theorem syncSubmissionGrade_warnings_nodup (env : GradeEnv) (assign : Assign)
    (goff : OfflineGrade) (warnings : List String) (courseId : Nat) (h : warnings.Nodup) :
    (syncSubmissionGrade env assign goff warnings courseId).warnings.Nodup := by
  cases syncSubmissionGrade_warnings_shape env assign goff warnings courseId with
  | inl he => rw [he]; exact h
  | inr hex =>
    obtain ⟨m, he⟩ := hex
    rw [he]
    exact pushWarning_nodup warnings m h

/-- The submission fold of `runEdits` preserves duplicate-freedom of the
shared warnings array. -/
theorem subsFoldl_warnings_nodup (env : AssignEnv) (assign : Assign)
    (subs : List OfflineSubmission) (acc : EditsAcc) (h : acc.warnings.Nodup) :
    ((subs.foldl (subEditStep env assign) acc).warnings).Nodup := by
  induction subs generalizing acc with
  | nil => exact h
  | cons s r ih =>
    rw [List.foldl_cons]
    exact ih _ (syncSubmission_warnings_nodup _ _ _ _ h)

/-- The grade fold of `runEdits` preserves duplicate-freedom of the shared
warnings array. -/
theorem gradesFoldl_warnings_nodup (env : AssignEnv) (assign : Assign) (courseId : Nat)
    (grades : List OfflineGrade) (acc : EditsAcc) (h : acc.warnings.Nodup) :
    ((grades.foldl (gradeEditStep env assign courseId) acc).warnings).Nodup := by
  induction grades generalizing acc with
  | nil => exact h
  | cons g r ih =>
    rw [List.foldl_cons]
    exact ih _ (syncSubmissionGrade_warnings_nodup _ _ _ _ _ h)

/-- The warnings accumulated over a whole per-edit phase are duplicate-free
(they start from the empty list). -/
theorem runEdits_warnings_nodup (env : AssignEnv) (assign : Assign) (courseId : Nat)
    (subs : List OfflineSubmission) (grades : List OfflineGrade) :
    (runEdits env assign courseId subs grades).warnings.Nodup := by
  unfold runEdits
  exact gradesFoldl_warnings_nodup env assign courseId grades _
    (subsFoldl_warnings_nodup env assign subs _ List.nodup_nil)

/-- A fresh (not attached to an ongoing sync) `syncAssign` run that resolves
resolves with a duplicate-free warnings list. -/
theorem syncAssign_ok_warnings_nodup (reg : SyncRegistry) (env : AssignEnv) (assignId : Nat)
    (siteId : Option String) (r : AddonModAssignSyncResult)
    (hreg : lookupOngoing reg assignId (siteId.getD env.currentSiteId) = none)
    (hr : (syncAssign reg env assignId siteId).result = Except.ok r) :
    r.warnings.Nodup := by
  unfold syncAssign at hr
  dsimp only at hr
  rw [hreg] at hr
  dsimp only at hr
  split at hr
  · simp at hr
  · split at hr
    · simp only [Except.ok.injEq] at hr
      rw [← hr]
      exact List.nodup_nil
    · split at hr
      · simp at hr
      · split at hr
        · simp at hr
        · split at hr
          · simp at hr
          · simp only [Except.ok.injEq] at hr
            rw [← hr]
            exact runEdits_warnings_nodup _ _ _ _ _

/-- The outcome-override inner step never touches the grade value. -/
theorem applyOutcomeItem_grade (g : GradeItem) (off : OfflineGrade) (p : Nat × Outcome) :
    (applyOutcomeItem g off p).grade = off.grade := by
  unfold applyOutcomeItem
  split <;> rfl

/-- The whole outcome-override inner loop never touches the grade value. -/
theorem outcomesFoldl_grade (g : GradeItem) (l : List (Nat × Outcome)) (off : OfflineGrade) :
    (l.foldl (applyOutcomeItem g) off).grade = off.grade := by
  induction l generalizing off with
  | nil => rfl
  | cons p r ih => rw [List.foldl_cons, ih, applyOutcomeItem_grade]

/-- An override-loop iteration that does not hit the unguarded
`gradeInfo.outcomes` read succeeds, and sets the grade to the value derived
from the gradebook entry exactly when the entry is recent enough and
carries neither an outcome id nor a scale id; otherwise the grade
survives. -/
theorem applyGradebookItem_ok (info : Option GradeInfo) (oe : Bool) (tm : Nat)
    (off : OfflineGrade) (g : GradeItem)
    (h : outcomeCrash info oe tm g = false) :
    ∃ o, applyGradebookItem info oe tm off g = Except.ok o ∧
      o.grade = if tm ≤ g.gradedategraded ∧ g.outcomeid = 0 ∧ g.scaleid = 0 then
          derivedGradeValue info g
        else off.grade := by
  unfold applyGradebookItem
  by_cases h1 : tm ≤ g.gradedategraded
  · rw [if_pos h1]
    by_cases h2 : g.outcomeid = 0 ∧ g.scaleid = 0
    · rw [if_pos h2]
      refine ⟨_, rfl, ?_⟩
      rw [if_pos ⟨h1, h2.1, h2.2⟩]
      unfold derivedGradeValue
      cases info with
      | none => rfl
      | some gi =>
        by_cases h3 : gi.scale ≠ "" <;> simp [h3]
    · rw [if_neg h2]
      by_cases h4 : g.outcomeid ≠ 0 ∧ oe = true
      · rw [if_pos h4]
        cases info with
        | none =>
          exfalso
          simp [outcomeCrash, h1, h4.1, h4.2] at h
        | some gi =>
          dsimp only
          cases hgo : gi.outcomes with
          | none => exact ⟨off, rfl, by rw [if_neg (fun hc => h2 ⟨hc.2.1, hc.2.2⟩)]⟩
          | some outs =>
            refine ⟨_, rfl, ?_⟩
            rw [outcomesFoldl_grade, if_neg (fun hc => h2 ⟨hc.2.1, hc.2.2⟩)]
      · rw [if_neg h4]
        exact ⟨off, rfl, by rw [if_neg (fun hc => h2 ⟨hc.2.1, hc.2.2⟩)]⟩
  · rw [if_neg h1]
    exact ⟨off, rfl, by rw [if_neg (fun hc => h1 hc.1)]⟩

/-- An override-loop iteration at a crash input throws the TypeError. -/
theorem applyGradebookItem_crash (info : Option GradeInfo) (oe : Bool) (tm : Nat)
    (off : OfflineGrade) (g : GradeItem)
    (h : outcomeCrash info oe tm g = true) :
    applyGradebookItem info oe tm off g = Except.error RejectVal.typeError := by
  simp only [outcomeCrash, Bool.and_eq_true, decide_eq_true_eq, Option.isNone_iff_eq_none] at h
  obtain ⟨⟨⟨hnone, hoe⟩, hle⟩, hout⟩ := h
  subst hnone
  unfold applyGradebookItem
  rw [if_pos hle, if_neg (fun hc => hout hc.1), if_pos ⟨hout, hoe⟩]

/-- Once an override-loop iteration has thrown, the remaining fold steps
keep the error. -/
theorem applyGradebookStep_foldl_error (info : Option GradeInfo) (oe : Bool) (tm : Nat)
    (rest : List GradeItem) (e : RejectVal) :
    rest.foldl (applyGradebookStep info oe tm) (Except.error e) = Except.error e := by
  induction rest with
  | nil => rfl
  | cons g r ih => rw [List.foldl_cons]; exact ih

/-- A crash-free override loop succeeds and leaves in `offlineData.grade`
the value derived from the last matching plain gradebook entry, or the
original grade when no entry matches. -/
theorem applyGradebook_grade (info : Option GradeInfo) (oe : Bool) (tm : Nat)
    (grades : List GradeItem) (off : OfflineGrade)
    (h : ∀ g ∈ grades, outcomeCrash info oe tm g = false) :
    ∃ o, applyGradebook info oe tm grades off = Except.ok o ∧
      o.grade = match lastPlain tm grades with
        | some g => derivedGradeValue info g
        | none => off.grade := by
  induction grades generalizing off with
  | nil => exact ⟨off, rfl, rfl⟩
  | cons g rest ih =>
    obtain ⟨o1, ho1, hg1⟩ := applyGradebookItem_ok info oe tm off g (h g (by simp))
    have hfold : applyGradebook info oe tm (g :: rest) off
        = applyGradebook info oe tm rest o1 := by
      unfold applyGradebook
      rw [List.foldl_cons]
      show List.foldl _ (applyGradebookItem info oe tm off g) rest = _
      rw [ho1]
    obtain ⟨o2, ho2, hg2⟩ := ih o1 (fun x hx => h x (by simp [hx]))
    refine ⟨o2, by rw [hfold, ho2], ?_⟩
    rw [hg2]
    simp only [lastPlain]
    cases hrest : lastPlain tm rest with
    | some hh => rfl
    | none =>
      rw [hg1]
      by_cases hc : tm ≤ g.gradedategraded ∧ g.outcomeid = 0 ∧ g.scaleid = 0
      · rw [if_pos hc, if_pos hc]
      · rw [if_neg hc, if_neg hc]

/-- An override loop containing a crashing entry throws the TypeError. -/
theorem applyGradebook_crash (info : Option GradeInfo) (oe : Bool) (tm : Nat)
    (grades : List GradeItem) (off : OfflineGrade)
    (h : ∃ g ∈ grades, outcomeCrash info oe tm g = true) :
    applyGradebook info oe tm grades off = Except.error RejectVal.typeError := by
  induction grades generalizing off with
  | nil => simp at h
  | cons g rest ih =>
    by_cases hg : outcomeCrash info oe tm g = true
    · have hfold : applyGradebook info oe tm (g :: rest) off
          = rest.foldl (applyGradebookStep info oe tm)
              (Except.error RejectVal.typeError) := by
        unfold applyGradebook
        rw [List.foldl_cons]
        show List.foldl _ (applyGradebookItem info oe tm off g) rest = _
        rw [applyGradebookItem_crash info oe tm off g hg]
      rw [hfold, applyGradebookStep_foldl_error]
    · obtain ⟨o1, ho1, _⟩ := applyGradebookItem_ok info oe tm off g
        (Bool.eq_false_iff.mpr (fun hc => hg hc))
      have hfold : applyGradebook info oe tm (g :: rest) off
          = applyGradebook info oe tm rest o1 := by
        unfold applyGradebook
        rw [List.foldl_cons]
        show List.foldl _ (applyGradebookItem info oe tm off g) rest = _
        rw [ho1]
      obtain ⟨x, hx, hcx⟩ := h
      rw [List.mem_cons] at hx
      cases hx with
      | inl hxg => exact absurd (hxg ▸ hcx) hg
      | inr hxr => rw [hfold]; exact ih o1 ⟨x, hxr, hcx⟩

/-- Whatever `submitGradingFormOnline` returns, once the run reaches the
upload — in particular, once the override loop has completed without
throwing — the upload call with the adjusted grade value is in the
trace. -/
theorem syncSubmissionGrade_uploads (env : GradeEnv) (assign : Assign) (goff : OfflineGrade)
    (warnings : List String) (courseId : Nat) (gstatus : GradeStatus)
    (gitems : List GradeItem) (ginfo : Option GradeInfo) (adjusted : OfflineGrade)
    (hstat : env.statusResult = Except.ok gstatus)
    (hfb : feedbackTime gstatus.feedback ≤ goff.timemodified)
    (hitems : env.gradeItemsResult = Except.ok gitems)
    (hinfo : env.gradeInfoResult = Except.ok ginfo)
    (hok : applyGradebook ginfo env.outcomesEditEnabled goff.timemodified gitems goff
      = Except.ok adjusted) :
    Call.submitGradingFormOnline assign.id goff.userid adjusted.grade
      ∈ (syncSubmissionGrade env assign goff warnings courseId).calls := by
  simp only [syncSubmissionGrade, hstat, hitems, hinfo]
  rw [if_neg (Nat.not_lt.mpr hfb)]
  rw [hok]
  dsimp only
  cases hsub : env.submitResult with
  | ok u => simp [finishGrade, pushWarning]
  | error e =>
    dsimp only
    by_cases hws : errTruthyAndWS e = true
    · rw [if_pos hws]
      unfold finishGrade
      split <;> simp
    · rw [if_neg hws]
      simp

/-- A crash input inside the gradebook — null grade info, outcomes editing
enabled, a recent outcome-carrying entry — makes the per-grade sync reject
with the TypeError before the upload: nothing is uploaded, nothing is
deleted, no warning is pushed. -/
theorem syncSubmissionGrade_crash (env : GradeEnv) (assign : Assign) (goff : OfflineGrade)
    (warnings : List String) (courseId : Nat) (gstatus : GradeStatus)
    (gitems : List GradeItem)
    (hstat : env.statusResult = Except.ok gstatus)
    (hfb : feedbackTime gstatus.feedback ≤ goff.timemodified)
    (hitems : env.gradeItemsResult = Except.ok gitems)
    (hinfo : env.gradeInfoResult = Except.ok none)
    (hcrash : ∃ g ∈ gitems,
      outcomeCrash none env.outcomesEditEnabled goff.timemodified g = true) :
    syncSubmissionGrade env assign goff warnings courseId =
      { result := Except.error RejectVal.typeError, warnings := warnings,
        calls := [Call.getSubmissionStatus assign.id goff.userid,
          Call.getGradeModuleItems courseId assign.cmid goff.userid,
          Call.getModuleBasicGradeInfo assign.cmid] } := by
  simp only [syncSubmissionGrade, hstat, hitems, hinfo]
  rw [if_neg (Nat.not_lt.mpr hfb)]
  rw [applyGradebook_crash none env.outcomesEditEnabled goff.timemodified gitems goff hcrash]
  rfl

/-- Saving the submission online fails with a web-service error carrying a
nonempty message chain: the run resolves, deletes the offline edit, and
pushes the discard warning. -/
theorem syncSubmission_saveFail_ws (assign : Assign) (off : OfflineSubmission)
    (sub : ServerSubmission) (pd : List (String × String)) (warnings : List String)
    (e : RejectVal)
    (hmatch : sub.timemodified = off.onlinetimemodified)
    (hpd : pd ≠ [])
    (hws : errTruthyAndWS e = true)
    (hmsg : errorMessageChain e ≠ "") :
    syncSubmission (subEnvSaveFail sub pd e) assign off warnings =
      { result := Except.ok (),
        warnings := pushWarning warnings
          (warningOfflineDataDeleted componentTranslate assign.name (errorMessageChain e)),
        calls := [Call.getSubmissionStatus assign.id off.userid,
            Call.saveSubmissionOnline assign.id, Call.deleteSubmission assign.id off.userid]
          ++ sub.plugins.map (fun _ => Call.deletePluginOfflineData assign.id off.userid) } := by
  simp only [syncSubmission, subEnvSaveFail]
  rw [if_neg (by simp [hmatch])]
  rw [if_neg (by simp [hpd])]
  dsimp only
  rw [if_pos hws]
  unfold finishSubmission
  rw [if_neg hmsg]
  rfl

/-- Saving the submission online fails with a non-web-service (transport)
error: the run rejects with that error and the offline edit is not
deleted. -/
theorem syncSubmission_saveFail_transport (assign : Assign) (off : OfflineSubmission)
    (sub : ServerSubmission) (pd : List (String × String)) (warnings : List String)
    (e : RejectVal)
    (hmatch : sub.timemodified = off.onlinetimemodified)
    (hpd : pd ≠ [])
    (htr : errTruthyAndWS e = false) :
    syncSubmission (subEnvSaveFail sub pd e) assign off warnings =
      { result := Except.error e, warnings := warnings,
        calls := [Call.getSubmissionStatus assign.id off.userid,
          Call.saveSubmissionOnline assign.id] } := by
  simp only [syncSubmission, subEnvSaveFail]
  rw [if_neg (by simp [hmatch])]
  rw [if_neg (by simp [hpd])]
  dsimp only
  rw [if_neg (by simp [htr])]
  rfl

/-- Submitting for grading fails with a web-service error carrying a
nonempty message chain: the run resolves, deletes the offline edit, and
pushes the discard warning. -/
theorem syncSubmission_submitFail_ws (assign : Assign) (off : OfflineSubmission)
    (sub : ServerSubmission) (pd : List (String × String)) (warnings : List String)
    (e : RejectVal)
    (hmatch : sub.timemodified = off.onlinetimemodified)
    (hpd : pd ≠ [])
    (hdrafts : assign.submissiondrafts = true)
    (hsubmitted : off.submitted = true)
    (hws : errTruthyAndWS e = true)
    (hmsg : errorMessageChain e ≠ "") :
    syncSubmission (subEnvSubmitFail sub pd e) assign off warnings =
      { result := Except.ok (),
        warnings := pushWarning warnings
          (warningOfflineDataDeleted componentTranslate assign.name (errorMessageChain e)),
        calls := [Call.getSubmissionStatus assign.id off.userid,
            Call.saveSubmissionOnline assign.id,
            Call.submitForGradingOnline assign.id off.submissionstatement,
            Call.deleteSubmission assign.id off.userid]
          ++ sub.plugins.map (fun _ => Call.deletePluginOfflineData assign.id off.userid) } := by
  simp only [syncSubmission, subEnvSubmitFail]
  rw [if_neg (by simp [hmatch])]
  rw [if_neg (by simp [hpd])]
  dsimp only
  rw [if_pos (by simp [hdrafts, hsubmitted] : assign.submissiondrafts = true ∧ off.submitted = true)]
  dsimp only
  rw [if_pos hws]
  unfold finishSubmission
  rw [if_neg hmsg]
  rfl

/-- Submitting for grading fails with a transport error: the run rejects
and the offline edit is not deleted. -/
theorem syncSubmission_submitFail_transport (assign : Assign) (off : OfflineSubmission)
    (sub : ServerSubmission) (pd : List (String × String)) (warnings : List String)
    (e : RejectVal)
    (hmatch : sub.timemodified = off.onlinetimemodified)
    (hpd : pd ≠ [])
    (hdrafts : assign.submissiondrafts = true)
    (hsubmitted : off.submitted = true)
    (htr : errTruthyAndWS e = false) :
    syncSubmission (subEnvSubmitFail sub pd e) assign off warnings =
      { result := Except.error e, warnings := warnings,
        calls := [Call.getSubmissionStatus assign.id off.userid,
          Call.saveSubmissionOnline assign.id,
          Call.submitForGradingOnline assign.id off.submissionstatement] } := by
  simp only [syncSubmission, subEnvSubmitFail]
  rw [if_neg (by simp [hmatch])]
  rw [if_neg (by simp [hpd])]
  dsimp only
  rw [if_pos (by simp [hdrafts, hsubmitted] : assign.submissiondrafts = true ∧ off.submitted = true)]
  dsimp only
  rw [if_neg (by simp [htr])]
  rfl

/-- The grading-form upload fails with a web-service error carrying a
nonempty message chain: the run resolves, deletes the offline grade, and
pushes the discard warning. -/
theorem syncSubmissionGrade_submitFail_ws (assign : Assign) (goff : OfflineGrade)
    (warnings : List String) (courseId : Nat) (gstatus : GradeStatus)
    (gitems : List GradeItem) (ginfo : Option GradeInfo) (oe : Bool) (e : RejectVal)
    (adjusted : OfflineGrade)
    (hfb : feedbackTime gstatus.feedback ≤ goff.timemodified)
    (hok : applyGradebook ginfo oe goff.timemodified gitems goff = Except.ok adjusted)
    (hws : errTruthyAndWS e = true)
    (hmsg : errorMessageChain e ≠ "") :
    syncSubmissionGrade (gradeEnvSubmitFail gstatus gitems ginfo oe e) assign goff
        warnings courseId =
      { result := Except.ok (),
        warnings := pushWarning warnings
          (warningOfflineDataDeleted componentTranslate assign.name (errorMessageChain e)),
        calls := [Call.getSubmissionStatus assign.id goff.userid,
          Call.getGradeModuleItems courseId assign.cmid goff.userid,
          Call.getModuleBasicGradeInfo assign.cmid,
          Call.submitGradingFormOnline assign.id goff.userid adjusted.grade,
          Call.deleteSubmissionGrade assign.id goff.userid] } := by
  simp only [syncSubmissionGrade, gradeEnvSubmitFail]
  rw [if_neg (Nat.not_lt.mpr hfb)]
  rw [hok]
  dsimp only
  rw [if_pos hws]
  unfold finishGrade
  rw [if_neg hmsg]
  rfl

/-- The grading-form upload fails with a transport error: the run rejects
and the offline grade is not deleted. -/
theorem syncSubmissionGrade_submitFail_transport (assign : Assign) (goff : OfflineGrade)
    (warnings : List String) (courseId : Nat) (gstatus : GradeStatus)
    (gitems : List GradeItem) (ginfo : Option GradeInfo) (oe : Bool) (e : RejectVal)
    (adjusted : OfflineGrade)
    (hfb : feedbackTime gstatus.feedback ≤ goff.timemodified)
    (hok : applyGradebook ginfo oe goff.timemodified gitems goff = Except.ok adjusted)
    (htr : errTruthyAndWS e = false) :
    syncSubmissionGrade (gradeEnvSubmitFail gstatus gitems ginfo oe e) assign goff
        warnings courseId =
      { result := Except.error e, warnings := warnings,
        calls := [Call.getSubmissionStatus assign.id goff.userid,
          Call.getGradeModuleItems courseId assign.cmid goff.userid,
          Call.getModuleBasicGradeInfo assign.cmid,
          Call.submitGradingFormOnline assign.id goff.userid adjusted.grade] } := by
  simp only [syncSubmissionGrade, gradeEnvSubmitFail]
  rw [if_neg (Nat.not_lt.mpr hfb)]
  rw [hok]
  dsimp only
  rw [if_neg (by simp [htr])]
  rfl

/-! ### Claims -/

/-- C4: for every assignment with no pending offline submissions and no
pending offline grades, `syncAssign` resolves with `{warnings: [], updated:
false}`, and its trace is the local `setSyncTime` alone, so
`getAssignmentById`, the three upload calls and `invalidateContent` are
never invoked. -/
theorem c4_no_pending_trivial (reg : SyncRegistry) (env : AssignEnv) (assignId : Nat)
    (siteId : Option String)
    (hreg : lookupOngoing reg assignId (siteId.getD env.currentSiteId) = none)
    (hblk : env.blocked = false)
    (hsubs : env.offlineSubmissions = [])
    (hgrades : env.offlineGrades = []) :
    (syncAssign reg env assignId siteId).result
        = Except.ok { warnings := [], updated := false } ∧
    (syncAssign reg env assignId siteId).calls = [Call.setSyncTime assignId] ∧
    (∀ c a, Call.getAssignmentById c a ∉ (syncAssign reg env assignId siteId).calls) ∧
    (∀ a, Call.saveSubmissionOnline a ∉ (syncAssign reg env assignId siteId).calls) ∧
    (∀ a b, Call.submitForGradingOnline a b ∉ (syncAssign reg env assignId siteId).calls) ∧
    (∀ a u g, Call.submitGradingFormOnline a u g ∉ (syncAssign reg env assignId siteId).calls) ∧
    (∀ c₁ c₂, Call.invalidateContent c₁ c₂ ∉ (syncAssign reg env assignId siteId).calls) := by
  simp [syncAssign, hreg, hblk, hsubs, hgrades]

/-- C4 witness: a concrete environment with nothing pending. -/
theorem c4_witness :
    lookupOngoing ([] : SyncRegistry) 7 (Option.getD none emptyAssignEnv.currentSiteId) = none ∧
    emptyAssignEnv.blocked = false ∧
    emptyAssignEnv.offlineSubmissions = [] ∧
    emptyAssignEnv.offlineGrades = [] ∧
    (syncAssign [] emptyAssignEnv 7 none).result = Except.ok { warnings := [], updated := false } :=
  ⟨rfl, rfl, rfl, rfl, (c4_no_pending_trivial [] emptyAssignEnv 7 none rfl rfl rfl rfl).1⟩

/-- C5: for every assignment with at least one pending offline edit, when
the device reports offline `syncAssign` rejects (with `null`) and no local
offline submission or grade edit is deleted. -/
theorem c5_offline_rejects (reg : SyncRegistry) (env : AssignEnv) (assignId : Nat)
    (siteId : Option String)
    (hreg : lookupOngoing reg assignId (siteId.getD env.currentSiteId) = none)
    (hblk : env.blocked = false)
    (hpending : env.offlineSubmissions ≠ [] ∨ env.offlineGrades ≠ [])
    (hoffline : env.isOnline = false) :
    (syncAssign reg env assignId siteId).result = Except.error RejectVal.nullErr ∧
    (syncAssign reg env assignId siteId).calls = [] ∧
    (∀ a u, Call.deleteSubmission a u ∉ (syncAssign reg env assignId siteId).calls) ∧
    (∀ a u, Call.deleteSubmissionGrade a u ∉ (syncAssign reg env assignId siteId).calls) := by
  have hcond : ¬ (env.offlineSubmissions = [] ∧ env.offlineGrades = []) := by
    rcases hpending with h | h <;> tauto
  simp [syncAssign, hreg, hblk, hcond, hoffline]

/-- C5 witness: one pending submission, device offline. -/
theorem c5_witness :
    lookupOngoing ([] : SyncRegistry) 7 (Option.getD none offlinePendingEnv.currentSiteId)
      = none ∧
    offlinePendingEnv.blocked = false ∧
    (offlinePendingEnv.offlineSubmissions ≠ [] ∨ offlinePendingEnv.offlineGrades ≠ []) ∧
    offlinePendingEnv.isOnline = false ∧
    (syncAssign [] offlinePendingEnv 7 none).result = Except.error RejectVal.nullErr :=
  ⟨rfl, rfl, Or.inl (by simp [offlinePendingEnv, emptyAssignEnv]), rfl,
    (c5_offline_rejects [] offlinePendingEnv 7 none rfl rfl
      (Or.inl (by simp [offlinePendingEnv, emptyAssignEnv])) rfl).1⟩

/-- C1 (amended): for every pending offline submission edit whose captured
`onlinetimemodified` differs from the server submission's current
`timemodified`, `syncSubmission` resolves, deletes the local submission
edit, never attempts an upload (`saveSubmissionOnline` and
`submitForGradingOnline` are not called), and appends exactly one conflict
warning unless an identical warning message is already present, in which
case none is appended. -/
theorem c1_stale_discard_no_upload (env : SubmissionEnv) (assign : Assign)
    (off : OfflineSubmission) (warnings : List String) (sub : ServerSubmission)
    (hstat : env.statusResult = Except.ok sub)
    (hstale : sub.timemodified ≠ off.onlinetimemodified) :
    (syncSubmission env assign off warnings).result = Except.ok () ∧
    Call.deleteSubmission assign.id off.userid ∈ (syncSubmission env assign off warnings).calls ∧
    (syncSubmission env assign off warnings).warnings
      = pushWarning warnings (warningOfflineDataDeleted componentTranslate assign.name
          (translateInstant "addon.mod_assign.warningsubmissionmodified")) ∧
    (∀ a, Call.saveSubmissionOnline a ∉ (syncSubmission env assign off warnings).calls) ∧
    (∀ a b, Call.submitForGradingOnline a b ∉ (syncSubmission env assign off warnings).calls) := by
  rw [syncSubmission_stale env assign off warnings sub hstat hstale]
  refine ⟨rfl, by simp, rfl, ?_, ?_⟩ <;> intros <;> simp

/-- C1 counterexample: a stale offline submission whose conflict warning is
already in the warnings list; the staleness condition of the claim holds
(server time 20 against captured time 10), yet the warnings list does not
grow by one — no warning is added, because the identical message is
deduplicated. -/
theorem c1_counterexample :
    staleSubEnv.statusResult = Except.ok { timemodified := 20, plugins := [] } ∧
    sampleOff.onlinetimemodified = 10 ∧
    ¬ ((syncSubmission staleSubEnv sampleAssign sampleOff
          [warningOfflineDataDeleted componentTranslate "A"
            (translateInstant "addon.mod_assign.warningsubmissionmodified")]).warnings.length
        = 1 + 1) := by
  refine ⟨rfl, rfl, ?_⟩
  decide

/-- C1 witness: the amended theorem applied to a concrete stale submission
with an empty incoming warnings list. -/
theorem c1_witness :
    staleSubEnv.statusResult = Except.ok { timemodified := 20, plugins := [] } ∧
    ((20 : Nat) ≠ sampleOff.onlinetimemodified) ∧
    (syncSubmission staleSubEnv sampleAssign sampleOff []).result = Except.ok () :=
  ⟨rfl, by decide,
    (c1_stale_discard_no_upload staleSubEnv sampleAssign sampleOff []
      { timemodified := 20, plugins := [] } rfl (by decide)).1⟩

/-- C3 (amended): when the grade reconciliation reaches the upload — in
particular no gradebook entry hits the unguarded `gradeInfo.outcomes` read
(null grade info, outcomes editing enabled, a recent outcome-carrying
entry), which would throw a TypeError and reject the sync before any upload
— the grade value uploaded by `submitGradingFormOnline` equals the value
derived — numeric parse of `gradeformatted`, or the selected scale index
via `getSelectedScaleId` — from the last gradebook entry whose graded date
is at least the offline edit's `timemodified` AND which carries neither an
outcome id nor a scale id.  In such a crash-free run, entries with an
outcome or scale id never override the uploaded grade value, and with
several matching plain entries the last one wins. -/
theorem c3_gradebook_override_uploads (env : GradeEnv) (assign : Assign)
    (goff : OfflineGrade) (warnings : List String) (courseId : Nat)
    (gstatus : GradeStatus) (gitems : List GradeItem) (ginfo : Option GradeInfo)
    (g : GradeItem)
    (hstat : env.statusResult = Except.ok gstatus)
    (hfb : feedbackTime gstatus.feedback ≤ goff.timemodified)
    (hitems : env.gradeItemsResult = Except.ok gitems)
    (hinfo : env.gradeInfoResult = Except.ok ginfo)
    (hsafe : ∀ it ∈ gitems,
      outcomeCrash ginfo env.outcomesEditEnabled goff.timemodified it = false)
    (hlast : lastPlain goff.timemodified gitems = some g) :
    Call.submitGradingFormOnline assign.id goff.userid (derivedGradeValue ginfo g)
      ∈ (syncSubmissionGrade env assign goff warnings courseId).calls := by
  obtain ⟨adjusted, hok, hgrade⟩ :=
    applyGradebook_grade ginfo env.outcomesEditEnabled goff.timemodified gitems goff hsafe
  have hval : adjusted.grade = derivedGradeValue ginfo g := by
    rw [hgrade, hlast]
  rw [← hval]
  exact syncSubmissionGrade_uploads env assign goff warnings courseId gstatus gitems ginfo
    adjusted hstat hfb hitems hinfo hok

/-- C3 counterexample: a gradebook entry graded later (time 100) than the
offline edit (time 50) but carrying a scale id.  The claim says such an
entry forces the uploaded grade to the derived value (`parseFloat` of
`gradeformatted "3"`, i.e. 3); the code skips it, and the originally stored
offline grade 7 is uploaded. -/
theorem c3_counterexample :
    sampleGradeOff.timemodified < scaleGradeItem.gradedategraded ∧
    derivedGradeValue none scaleGradeItem = some 3 ∧
    Call.submitGradingFormOnline sampleAssign.id sampleGradeOff.userid (some 7)
      ∈ (syncSubmissionGrade scaleItemGradeEnv sampleAssign sampleGradeOff [] 4).calls ∧
    ¬ (some (7 : ℚ) = some (3 : ℚ)) := by
  refine ⟨by decide, by decide, by decide, by decide⟩

/-- C3 witness: the amended theorem applied to a concrete newer plain
gradebook entry; the uploaded value is the parsed `gradeformatted` value 3,
not the stored 7. -/
theorem c3_witness :
    plainItemGradeEnv.statusResult = Except.ok { feedback := none } ∧
    feedbackTime (none : Option Feedback) ≤ sampleGradeOff.timemodified ∧
    lastPlain sampleGradeOff.timemodified [plainGradeItem] = some plainGradeItem ∧
    Call.submitGradingFormOnline sampleAssign.id sampleGradeOff.userid
        (derivedGradeValue none plainGradeItem)
      ∈ (syncSubmissionGrade plainItemGradeEnv sampleAssign sampleGradeOff [] 4).calls :=
  ⟨rfl, by decide, by decide,
    c3_gradebook_override_uploads plainItemGradeEnv sampleAssign sampleGradeOff [] 4
      { feedback := none } [plainGradeItem] none plainGradeItem rfl (by decide) rfl rfl
      (by decide) (by decide)⟩

/-- C2 (amended): for every upload failure during submission or grade
reconciliation — the submission save, the submit-for-grading step, or the
grading-form upload — a failure classified as a web-service error discards
the local edit, resolves the per-edit sync, and records a warning provided
the error carries a nonempty message text (with empty message fields, the
falsy `discardError` suppresses the warning); any other failure rejects the
per-edit sync without deleting the local offline edit, leaving it for
retry.  For the grade reconciliation this describes the runs that reach the
upload: the gradebook-override loop must not hit the unguarded
`gradeInfo.outcomes` read (null grade info, outcomes editing enabled, a
recent outcome-carrying entry), which throws before any upload and rejects
the sync without deleting. -/
theorem c2_upload_failure_discard_or_retry (assign : Assign) (off : OfflineSubmission)
    (sub : ServerSubmission) (pd : List (String × String)) (warnings : List String)
    (goff : OfflineGrade) (gstatus : GradeStatus) (gitems : List GradeItem)
    (ginfo : Option GradeInfo) (oe : Bool) (courseId : Nat) (e₁ e₂ : RejectVal)
    (hmatch : sub.timemodified = off.onlinetimemodified)
    (hpd : pd ≠ [])
    (hdrafts : assign.submissiondrafts = true)
    (hsubmitted : off.submitted = true)
    (hws : errTruthyAndWS e₁ = true)
    (hmsg : errorMessageChain e₁ ≠ "")
    (htr : errTruthyAndWS e₂ = false)
    (hfb : feedbackTime gstatus.feedback ≤ goff.timemodified)
    (hsafe : ∀ it ∈ gitems, outcomeCrash ginfo oe goff.timemodified it = false) :
    ((syncSubmission (subEnvSaveFail sub pd e₁) assign off warnings).result = Except.ok () ∧
      Call.deleteSubmission assign.id off.userid
        ∈ (syncSubmission (subEnvSaveFail sub pd e₁) assign off warnings).calls ∧
      warningOfflineDataDeleted componentTranslate assign.name (errorMessageChain e₁)
        ∈ (syncSubmission (subEnvSaveFail sub pd e₁) assign off warnings).warnings) ∧
    ((syncSubmission (subEnvSaveFail sub pd e₂) assign off warnings).result
        = Except.error e₂ ∧
      Call.deleteSubmission assign.id off.userid
        ∉ (syncSubmission (subEnvSaveFail sub pd e₂) assign off warnings).calls ∧
      (syncSubmission (subEnvSaveFail sub pd e₂) assign off warnings).warnings = warnings) ∧
    ((syncSubmission (subEnvSubmitFail sub pd e₁) assign off warnings).result = Except.ok () ∧
      Call.deleteSubmission assign.id off.userid
        ∈ (syncSubmission (subEnvSubmitFail sub pd e₁) assign off warnings).calls ∧
      warningOfflineDataDeleted componentTranslate assign.name (errorMessageChain e₁)
        ∈ (syncSubmission (subEnvSubmitFail sub pd e₁) assign off warnings).warnings) ∧
    ((syncSubmission (subEnvSubmitFail sub pd e₂) assign off warnings).result
        = Except.error e₂ ∧
      Call.deleteSubmission assign.id off.userid
        ∉ (syncSubmission (subEnvSubmitFail sub pd e₂) assign off warnings).calls) ∧
    ((syncSubmissionGrade (gradeEnvSubmitFail gstatus gitems ginfo oe e₁) assign goff
          warnings courseId).result = Except.ok () ∧
      Call.deleteSubmissionGrade assign.id goff.userid
        ∈ (syncSubmissionGrade (gradeEnvSubmitFail gstatus gitems ginfo oe e₁) assign goff
            warnings courseId).calls ∧
      warningOfflineDataDeleted componentTranslate assign.name (errorMessageChain e₁)
        ∈ (syncSubmissionGrade (gradeEnvSubmitFail gstatus gitems ginfo oe e₁) assign goff
            warnings courseId).warnings) ∧
    ((syncSubmissionGrade (gradeEnvSubmitFail gstatus gitems ginfo oe e₂) assign goff
          warnings courseId).result = Except.error e₂ ∧
      Call.deleteSubmissionGrade assign.id goff.userid
        ∉ (syncSubmissionGrade (gradeEnvSubmitFail gstatus gitems ginfo oe e₂) assign goff
            warnings courseId).calls) := by
  obtain ⟨adjusted, hok, _⟩ :=
    applyGradebook_grade ginfo oe goff.timemodified gitems goff hsafe
  refine ⟨?_, ?_, ?_, ?_, ?_, ?_⟩
  · rw [syncSubmission_saveFail_ws assign off sub pd warnings e₁ hmatch hpd hws hmsg]
    exact ⟨rfl, by simp, pushWarning_mem_self _ _⟩
  · rw [syncSubmission_saveFail_transport assign off sub pd warnings e₂ hmatch hpd htr]
    exact ⟨rfl, by simp, rfl⟩
  · rw [syncSubmission_submitFail_ws assign off sub pd warnings e₁ hmatch hpd hdrafts
      hsubmitted hws hmsg]
    exact ⟨rfl, by simp, pushWarning_mem_self _ _⟩
  · rw [syncSubmission_submitFail_transport assign off sub pd warnings e₂ hmatch hpd hdrafts
      hsubmitted htr]
    exact ⟨rfl, by simp⟩
  · rw [syncSubmissionGrade_submitFail_ws assign goff warnings courseId gstatus gitems ginfo
      oe e₁ adjusted hfb hok hws hmsg]
    exact ⟨rfl, by simp, pushWarning_mem_self _ _⟩
  · rw [syncSubmissionGrade_submitFail_transport assign goff warnings courseId gstatus gitems
      ginfo oe e₂ adjusted hfb hok htr]
    exact ⟨rfl, by simp⟩

/-- C2 counterexample: a save failure classified as a web-service error all
of whose message fields are empty.  The offline edit is discarded and the
per-edit sync resolves as the claim says, but no warning is recorded: the
warnings list stays empty, because the empty message chain is falsy. -/
theorem c2_counterexample :
    errTruthyAndWS wsErrorNoMessage = true ∧
    (syncSubmission
        (subEnvSaveFail { timemodified := 10, plugins := [] } [("k", "v")] wsErrorNoMessage)
        sampleAssign sampleOff []).result = Except.ok () ∧
    Call.deleteSubmission sampleAssign.id sampleOff.userid
      ∈ (syncSubmission
          (subEnvSaveFail { timemodified := 10, plugins := [] } [("k", "v")] wsErrorNoMessage)
          sampleAssign sampleOff []).calls ∧
    (syncSubmission
        (subEnvSaveFail { timemodified := 10, plugins := [] } [("k", "v")] wsErrorNoMessage)
        sampleAssign sampleOff []).warnings = [] := by
  exact ⟨rfl, rfl, by decide, rfl⟩

/-- C2 witness: the amended theorem applied at concrete inputs (a
web-service error with message "boom" and a `null` transport rejection). -/
theorem c2_witness :
    errTruthyAndWS wsError = true ∧
    errorMessageChain wsError ≠ "" ∧
    errTruthyAndWS RejectVal.nullErr = false ∧
    (syncSubmission (subEnvSaveFail { timemodified := 10, plugins := [] } [("k", "v")] wsError)
        draftsAssign submittedOff []).result = Except.ok () :=
  ⟨rfl, by decide, rfl,
    (c2_upload_failure_discard_or_retry draftsAssign submittedOff
        { timemodified := 10, plugins := [] } [("k", "v")] [] sampleGradeOff
        { feedback := none } [] none false 4 wsError RejectVal.nullErr rfl (by decide)
        rfl rfl rfl (by decide) rfl (by decide) (by simp)).1.1⟩

/-- C6: when a second `syncAssign` is issued for the same (assignment id,
site id) pair while a first one is in flight, the second returns the
in-flight sync's outcome: both callers observe the first run's result, the
second run issues no calls at all, and the total trace of the two calls is
exactly the first run's trace (one network upload sequence). -/
theorem c6_concurrent_same_result (env : AssignEnv) (assignId : Nat) (site : String) :
    (syncAssign [((assignId, site), (syncAssign [] env assignId (some site)).result)]
        env assignId (some site)).result
      = (syncAssign [] env assignId (some site)).result ∧
    (syncAssign [((assignId, site), (syncAssign [] env assignId (some site)).result)]
        env assignId (some site)).calls = [] ∧
    (syncAssign [] env assignId (some site)).calls
        ++ (syncAssign [((assignId, site), (syncAssign [] env assignId (some site)).result)]
              env assignId (some site)).calls
      = (syncAssign [] env assignId (some site)).calls := by
  have hlook : lookupOngoing
      [((assignId, site), (syncAssign [] env assignId (some site)).result)] assignId site
      = some (syncAssign [] env assignId (some site)).result := by
    simp [lookupOngoing]
  have hres : (syncAssign [((assignId, site), (syncAssign [] env assignId (some site)).result)]
      env assignId (some site)).result
        = (syncAssign [] env assignId (some site)).result := by
    conv_lhs => rw [syncAssign]
    simp [hlook]
  have hcalls : (syncAssign [((assignId, site), (syncAssign [] env assignId (some site)).result)]
      env assignId (some site)).calls = [] := by
    conv_lhs => rw [syncAssign]
    simp [hlook]
  exact ⟨hres, hcalls, by rw [hcalls]; simp⟩

/-- C7: `syncAssignIfNeeded` runs `syncAssign` exactly when `isSyncNeeded`
reports that the minimum interval has elapsed since the last successful
sync, and otherwise resolves without syncing; after a first call whose sync
completed (recorded its sync time), a second call within the minimum
interval performs no sync. -/
theorem c7_sync_if_needed (tno tyes : SyncTimeEnv) (reg : SyncRegistry) (env : AssignEnv)
    (assignId : Nat) (siteId : Option String) (now2 : Nat)
    (hno : isSyncNeeded tno = false)
    (hyes : isSyncNeeded tyes = true)
    (hdone : Call.setSyncTime assignId ∈ (syncAssign reg env assignId siteId).calls)
    (hwithin : now2 - tyes.now ≤ tyes.syncInterval) :
    syncAssignIfNeeded tno reg env assignId siteId = none ∧
    syncAssignIfNeeded tyes reg env assignId siteId
      = some (syncAssign reg env assignId siteId) ∧
    syncAssignIfNeeded
      { now := now2,
        lastSync := lastSyncAfter tyes assignId (syncAssign reg env assignId siteId),
        syncInterval := tyes.syncInterval } reg env assignId siteId = none := by
  refine ⟨by simp [syncAssignIfNeeded, hno], by simp [syncAssignIfNeeded, hyes], ?_⟩
  have hlast : lastSyncAfter tyes assignId (syncAssign reg env assignId siteId)
      = some tyes.now := by
    simp [lastSyncAfter, hdone]
  simp [syncAssignIfNeeded, isSyncNeeded, hlast, Nat.not_lt.mpr hwithin]

/-- C7 witness: a not-needed environment (last sync 0, now 0, interval 10),
a needed one (no last sync), and a second call immediately after the first
completed. -/
theorem c7_witness :
    isSyncNeeded { now := 0, lastSync := some 0, syncInterval := 10 } = false ∧
    isSyncNeeded { now := 5, lastSync := none, syncInterval := 10 } = true ∧
    Call.setSyncTime 7 ∈ (syncAssign [] emptyAssignEnv 7 none).calls ∧
    6 - (5 : Nat) ≤ 10 ∧
    syncAssignIfNeeded { now := 0, lastSync := some 0, syncInterval := 10 }
      [] emptyAssignEnv 7 none = none :=
  ⟨rfl, rfl, by simp [syncAssign, emptyAssignEnv, lookupOngoing], by decide,
    (c7_sync_if_needed { now := 0, lastSync := some 0, syncInterval := 10 }
      { now := 5, lastSync := none, syncInterval := 10 } [] emptyAssignEnv 7 none 6
      rfl rfl (by simp [syncAssign, emptyAssignEnv, lookupOngoing]) (by decide)).1⟩

/-- C8: the discard-warning pushes check the exact message text against the
existing list and skip duplicates, so a duplicate-free warnings list stays
duplicate-free across any submission or grade reconciliation, and the
warnings list of every resolved fresh `syncAssign` result (built from the
empty list) is duplicate-free. -/
theorem c8_warnings_no_duplicates (env : SubmissionEnv) (assign : Assign)
    (off : OfflineSubmission) (warnings : List String) (genv : GradeEnv)
    (goff : OfflineGrade) (courseId : Nat) (reg : SyncRegistry) (aenv : AssignEnv)
    (assignId : Nat) (siteId : Option String) (r : AddonModAssignSyncResult)
    (h : warnings.Nodup)
    (hreg : lookupOngoing reg assignId (siteId.getD aenv.currentSiteId) = none)
    (hr : (syncAssign reg aenv assignId siteId).result = Except.ok r) :
    (syncSubmission env assign off warnings).warnings.Nodup ∧
    (syncSubmissionGrade genv assign goff warnings courseId).warnings.Nodup ∧
    r.warnings.Nodup :=
  ⟨syncSubmission_warnings_nodup env assign off warnings h,
    syncSubmissionGrade_warnings_nodup genv assign goff warnings courseId h,
    syncAssign_ok_warnings_nodup reg aenv assignId siteId r hreg hr⟩

/-- C8 witness: a concrete duplicate-free warnings list through a stale
submission reconciliation, and the empty-store sync result. -/
theorem c8_witness :
    (["w1"] : List String).Nodup ∧
    lookupOngoing ([] : SyncRegistry) 7 (Option.getD none emptyAssignEnv.currentSiteId)
      = none ∧
    (syncAssign [] emptyAssignEnv 7 none).result
      = Except.ok { warnings := [], updated := false } ∧
    (syncSubmission staleSubEnv sampleAssign sampleOff ["w1"]).warnings.Nodup :=
  ⟨by decide, rfl, rfl,
    (c8_warnings_no_duplicates staleSubEnv sampleAssign sampleOff ["w1"] okGradeEnv
      sampleGradeOff 4 [] emptyAssignEnv 7 none { warnings := [], updated := false }
      (by decide) rfl rfl).1⟩

/-- C9: a conflict-only sync — a single pending submission discarded because
the server copy changed, nothing uploaded — still reports `updated := true`
(alongside the one discard warning), still triggers `invalidateContent`,
and through the batch driver still fires the `AUTO_SYNCED` event. -/
theorem c9_discard_only_updated (env : AssignEnv) (assign : Assign) (off : OfflineSubmission)
    (senv : SubmissionEnv) (assignId : Nat) (siteId : Option String) (t : SyncTimeEnv)
    (sub : ServerSubmission)
    (hblk : env.blocked = false)
    (hsubs : env.offlineSubmissions = [off])
    (hgrades : env.offlineGrades = [])
    (hon : env.isOnline = true)
    (hassign : env.assignResult = Except.ok assign)
    (hsenv : env.submissionEnv off.userid = senv)
    (hstat : senv.statusResult = Except.ok sub)
    (hstale : sub.timemodified ≠ off.onlinetimemodified)
    (hneeded : isSyncNeeded t = true) :
    (syncAssign [] env assignId siteId).result
      = Except.ok { warnings := [staleWarning assign], updated := true } ∧
    Call.invalidateContent assign.cmid off.courseid
      ∈ (syncAssign [] env assignId siteId).calls ∧
    Call.triggerAutoSynced assignId [staleWarning assign]
      ∈ syncAllAssignmentsFunc [(assignId, t, [], env)] siteId := by
  have hsync := syncSubmission_stale senv assign off [] sub hstat hstale
  have hacc : runEdits env assign off.courseid [off] []
      = { warnings := [staleWarning assign],
          calls := [Call.getSubmissionStatus assign.id off.userid,
              Call.deleteSubmission assign.id off.userid]
            ++ sub.plugins.map (fun _ => Call.deletePluginOfflineData assign.id off.userid),
          updated := true, firstError := none } := by
    unfold runEdits
    dsimp only [List.foldl_cons, List.foldl_nil]
    unfold subEditStep
    dsimp only
    rw [hsenv, hsync]
    simp [staleWarning, pushWarning, isOk, errOpt]
  have hout : syncAssign [] env assignId siteId
      = { result := Except.ok { warnings := [staleWarning assign], updated := true },
          calls := [Call.getAssignmentById off.courseid assignId,
              Call.getSubmissionStatus assign.id off.userid,
              Call.deleteSubmission assign.id off.userid]
            ++ sub.plugins.map (fun _ => Call.deletePluginOfflineData assign.id off.userid)
            ++ [Call.invalidateContent assign.cmid off.courseid,
              Call.setSyncTime assignId] } := by
    rw [syncAssign]
    simp [lookupOngoing, hblk, hsubs, hgrades, hon, hassign, hacc]
  refine ⟨by rw [hout], by rw [hout]; simp, ?_⟩
  unfold syncAllAssignmentsFunc
  dsimp only [List.foldl_cons, List.foldl_nil]
  rw [show syncAssignIfNeeded t [] env assignId siteId
      = some (syncAssign [] env assignId siteId) from by simp [syncAssignIfNeeded, hneeded]]
  rw [hout]
  simp

/-- C9 witness: a concrete stale submission, synced through the batch
driver. -/
theorem c9_witness :
    staleSubEnv.statusResult = Except.ok { timemodified := 20, plugins := [] } ∧
    ((20 : Nat) ≠ sampleOff.onlinetimemodified) ∧
    isSyncNeeded { now := 5, lastSync := none, syncInterval := 10 } = true ∧
    (syncAssign [] (conflictOnlyEnv "siteA" sampleAssign sampleOff staleSubEnv okGradeEnv)
        7 (some "siteA")).result
      = Except.ok { warnings := [staleWarning sampleAssign], updated := true } :=
  ⟨rfl, by decide, rfl,
    (c9_discard_only_updated (conflictOnlyEnv "siteA" sampleAssign sampleOff staleSubEnv
        okGradeEnv) sampleAssign sampleOff staleSubEnv 7 (some "siteA")
      { now := 5, lastSync := none, syncInterval := 10 }
      { timemodified := 20, plugins := [] } rfl rfl rfl rfl rfl rfl rfl (by decide) rfl).1⟩

/-- C10: with no pending offline edits, `syncAssign` succeeds even when the
device is offline (the connectivity check is never reached on this path),
and it still records the sync time, so an immediately following
`syncAssignIfNeeded` within the minimum interval performs no sync. -/
theorem c10_noop_offline_sets_time (reg : SyncRegistry) (env : AssignEnv) (assignId : Nat)
    (siteId : Option String) (t : SyncTimeEnv) (now2 : Nat)
    (hreg : lookupOngoing reg assignId (siteId.getD env.currentSiteId) = none)
    (hblk : env.blocked = false)
    (hsubs : env.offlineSubmissions = [])
    (hgrades : env.offlineGrades = [])
    (_hoffline : env.isOnline = false)
    (hwithin : now2 - t.now ≤ t.syncInterval) :
    (syncAssign reg env assignId siteId).result
      = Except.ok { warnings := [], updated := false } ∧
    Call.setSyncTime assignId ∈ (syncAssign reg env assignId siteId).calls ∧
    syncAssignIfNeeded
      { now := now2, lastSync := lastSyncAfter t assignId (syncAssign reg env assignId siteId),
        syncInterval := t.syncInterval } reg env assignId siteId = none := by
  have hout : (syncAssign reg env assignId siteId).result
        = Except.ok { warnings := [], updated := false } ∧
      (syncAssign reg env assignId siteId).calls = [Call.setSyncTime assignId] := by
    constructor <;> simp [syncAssign, hreg, hblk, hsubs, hgrades]
  refine ⟨hout.1, ?_, ?_⟩
  · rw [hout.2]; simp
  · have hlast : lastSyncAfter t assignId (syncAssign reg env assignId siteId)
        = some t.now := by
      simp [lastSyncAfter, hout.2]
    simp [syncAssignIfNeeded, isSyncNeeded, hlast, Nat.not_lt.mpr hwithin]

/-- C10 witness: empty store on an offline device, second check immediately
afterwards. -/
theorem c10_witness :
    lookupOngoing ([] : SyncRegistry) 7
      (Option.getD none { emptyAssignEnv with isOnline := false }.currentSiteId) = none ∧
    ({ emptyAssignEnv with isOnline := false } : AssignEnv).isOnline = false ∧
    (syncAssign [] { emptyAssignEnv with isOnline := false } 7 none).result
      = Except.ok { warnings := [], updated := false } :=
  ⟨rfl, rfl,
    (c10_noop_offline_sets_time [] { emptyAssignEnv with isOnline := false } 7 none
      { now := 5, lastSync := none, syncInterval := 10 } 6 rfl rfl rfl rfl rfl
      (by decide)).1⟩
